import Mathlib

/-!
Shallow embedding of `iced-nsview` (src/lib.rs): an NSView subclass hosting an
iced application.  The embedding models the drag-and-drop callbacks and their
`_did_exit_drag` flag, the event handler's resize / swap-chain logic, the
redraw tick, the key-code lookup table, the keyboard event translation, the
clipboard (pasteboard) read, the cursor-icon mapping and the mouse button
number mapping.  Native handles (NSView, CAMetalLayer, wgpu device/surface)
are external resources; their observable behaviour relevant to the claims is
modelled explicitly (e.g. a pasteboard is the list of string objects a read
returns, a swap chain is its descriptor).
-/

namespace IcedNSView

/-! ## Toolkit event model (iced_native) -/

/-- `iced_native::keyboard::KeyCode`: the portable key-code enumeration
(only the constructors reachable from the lookup table are listed, plus
nothing else is needed by the code). -/
inductive KeyCode where
  | Key0 | Key1 | Key2 | Key3 | Key4 | Key5 | Key6 | Key7 | Key8 | Key9
  | A | B | C | D | E | F | G | H | I | J | K | L | M
  | N | O | P | Q | R | S | T | U | V | W | X | Y | Z
  | Grave | Minus | Equals | LBracket | RBracket | Semicolon | Apostrophe
  | Comma | Period | Slash | Backslash
  | Numpad0 | Numpad1 | Numpad2 | Numpad3 | Numpad4
  | Numpad5 | Numpad6 | Numpad7 | Numpad8 | Numpad9
  | NumpadComma | Multiply | Add | Divide | NumpadEquals | NumpadEnter
  | Space | Enter | Tab | Backspace | Delete | Escape
  | LWin | LShift | Capital | LAlt | LControl | RShift | RAlt | RControl
  | F1 | F2 | F3 | F4 | F5 | F6 | F7 | F8 | F9 | F10
  | F11 | F12 | F13 | F14 | F15 | F16 | F17 | F18 | F19 | F20
  | VolumeUp | VolumeDown | Mute
  | Insert | Home | End | PageUp | PageDown
  | Left | Right | Down | Up
  deriving DecidableEq, Repr

/-- `iced_native::keyboard::ModifiersState`: four booleans decoded from the
native modifier-flag bitmask. -/
structure ModifiersState where
  shift : Bool
  control : Bool
  alt : Bool
  logo : Bool
  deriving DecidableEq, Repr

/-- `iced_native::keyboard::Event` (the variants produced by this crate). -/
inductive KeyboardEvent where
  | KeyPressed (key_code : KeyCode) (modifiers : ModifiersState)
  | KeyReleased (key_code : KeyCode) (modifiers : ModifiersState)
  | CharacterReceived (c : Char)
  deriving DecidableEq, Repr

/-- `iced_native::mouse::Button`.  `Other` carries a `u8`, modelled as the
natural number it denotes (always `< 256`). -/
inductive Button where
  | Left
  | Right
  | Middle
  | Other (n : Nat)
  deriving DecidableEq, Repr

/-- `iced_native::mouse::Interaction`: the cursor-shape hint returned by the
draw pass. -/
inductive Interaction where
  | Idle | Pointer | Grab | Text | Crosshair | Working | Grabbing
  | ResizingHorizontally | ResizingVertically
  deriving DecidableEq, Repr

/-- `iced_native::window::Event` (the variants produced by this crate). -/
inductive WindowEvent where
  | Resized (width height : Nat)
  | FileHovered (path : String)
  | FileDropped (path : String)
  | FilesHoveredLeft
  deriving DecidableEq, Repr

/-- `iced_native::Event` (the variants this crate queues through
`on_window_event` and the keyboard translation). -/
inductive Event where
  | Window (e : WindowEvent)
  | Keyboard (e : KeyboardEvent)
  deriving DecidableEq, Repr

/-- Recognizer for key-pressed events (used to count key events). -/
def Event.isKeyPressed : Event → Bool
  | .Keyboard (.KeyPressed _ _) => true
  | _ => false

/-- Recognizer for character-received events. -/
def Event.isCharacterReceived : Event → Bool
  | .Keyboard (.CharacterReceived _) => true
  | _ => false

/-- Recognizer for key events (pressed or released), as opposed to
character events. -/
def Event.isKeyEvent : Event → Bool
  | .Keyboard (.KeyPressed _ _) => true
  | .Keyboard (.KeyReleased _ _) => true
  | _ => false

/-! ## Key-code lookup table

`impl From<NSKeyCode> for Option<keyboard::KeyCode>` (src/lib.rs:709-829).
The native key code is a `u16`; the match arms are transcribed verbatim,
every unlisted code falls to `None`. -/

/-- The fixed lookup table from native macOS scan codes to the portable
key-code enumeration; unmapped codes yield `none`. -/
def NSKeyCode.toKeyCode (key_code : Nat) : Option KeyCode :=
  match key_code with
  | 29 => some .Key0
  | 18 => some .Key1
  | 19 => some .Key2
  | 20 => some .Key3
  | 21 => some .Key4
  | 23 => some .Key5
  | 22 => some .Key6
  | 26 => some .Key7
  | 28 => some .Key8
  | 25 => some .Key9
  | 0 => some .A
  | 11 => some .B
  | 8 => some .C
  | 2 => some .D
  | 14 => some .E
  | 3 => some .F
  | 5 => some .G
  | 4 => some .H
  | 34 => some .I
  | 38 => some .J
  | 40 => some .K
  | 37 => some .L
  | 46 => some .M
  | 45 => some .N
  | 31 => some .O
  | 35 => some .P
  | 12 => some .Q
  | 15 => some .R
  | 1 => some .S
  | 17 => some .T
  | 32 => some .U
  | 9 => some .V
  | 13 => some .W
  | 7 => some .X
  | 16 => some .Y
  | 6 => some .Z
  | 50 => some .Grave
  | 27 => some .Minus
  | 24 => some .Equals
  | 33 => some .LBracket
  | 30 => some .RBracket
  | 41 => some .Semicolon
  | 39 => some .Apostrophe
  | 43 => some .Comma
  | 47 => some .Period
  | 44 => some .Slash
  | 42 => some .Backslash
  | 82 => some .Numpad0
  | 83 => some .Numpad1
  | 84 => some .Numpad2
  | 85 => some .Numpad3
  | 86 => some .Numpad4
  | 87 => some .Numpad5
  | 88 => some .Numpad6
  | 89 => some .Numpad7
  | 91 => some .Numpad8
  | 92 => some .Numpad9
  | 65 => some .NumpadComma
  | 67 => some .Multiply
  | 69 => some .Add
  | 75 => some .Divide
  | 78 => some .Minus
  | 81 => some .NumpadEquals
  | 76 => some .NumpadEnter
  | 49 => some .Space
  | 36 => some .Enter
  | 48 => some .Tab
  | 51 => some .Backspace
  | 117 => some .Delete
  | 53 => some .Escape
  | 55 => some .LWin
  | 56 => some .LShift
  | 57 => some .Capital
  | 58 => some .LAlt
  | 59 => some .LControl
  | 60 => some .RShift
  | 61 => some .RAlt
  | 62 => some .RControl
  | 122 => some .F1
  | 120 => some .F2
  | 99 => some .F3
  | 118 => some .F4
  | 96 => some .F5
  | 97 => some .F6
  | 98 => some .F7
  | 100 => some .F8
  | 101 => some .F9
  | 109 => some .F10
  | 103 => some .F11
  | 111 => some .F12
  | 105 => some .F13
  | 107 => some .F14
  | 113 => some .F15
  | 106 => some .F16
  | 64 => some .F17
  | 79 => some .F18
  | 80 => some .F19
  | 90 => some .F20
  | 72 => some .VolumeUp
  | 73 => some .VolumeDown
  | 74 => some .Mute
  | 114 => some .Insert
  | 115 => some .Home
  | 119 => some .End
  | 116 => some .PageUp
  | 121 => some .PageDown
  | 123 => some .Left
  | 124 => some .Right
  | 125 => some .Down
  | 126 => some .Up
  | _ => none

/-! ## Modifier flags

`impl From<ModifierFlags> for keyboard::ModifiersState` (src/lib.rs:833-842).
`NSEventModifierFlags` is a bitmask; the shift/control/alternate/command
masks are the single bits 17/18/19/20. -/

/-- Decode the native modifier-flag bitmask into the four-boolean state. -/
def ModifiersState.from_flags (flags : Nat) : ModifiersState :=
  { shift := flags.testBit 17
    control := flags.testBit 18
    alt := flags.testBit 19
    logo := flags.testBit 20 }

/-! ## Keyboard event translation

`NSEventT` (src/lib.rs:608-705).  The native event's key code, typed
characters (after lossy UTF-8 decoding) and modifier flags are independent
fields; they are the only fields the key-down/key-up paths read. -/

/-- The fields of a native key event read by `as_key_down` / `as_key_up` /
`into_chars`: the `u16` scan code, the decoded `characters` string and the
modifier-flag bitmask. -/
structure NSEventT where
  keyCode : Nat
  characters : String
  modifierFlags : Nat

/-- `NSEventT::into_chars`: one `CharacterReceived` event per character of
the event's text. -/
def NSEventT.into_chars (e : NSEventT) : List Event :=
  e.characters.toList.map (fun c => Event.Keyboard (.CharacterReceived c))

/-- `NSEventT::as_key_down`: the character events concatenated with the
(zero-or-one) `KeyPressed` event obtained from the lookup table. -/
def NSEventT.as_key_down (e : NSEventT) : List Event :=
  let modifiers := ModifiersState.from_flags e.modifierFlags
  e.into_chars ++
    (((NSKeyCode.toKeyCode e.keyCode).map
      (fun kc => [Event.Keyboard (.KeyPressed kc modifiers)])).getD [])

/-- `NSEventT::as_key_up`: zero-or-one `KeyReleased` event, no characters. -/
def NSEventT.as_key_up (e : NSEventT) : List Event :=
  let modifiers := ModifiersState.from_flags e.modifierFlags
  ((NSKeyCode.toKeyCode e.keyCode).map
    (fun kc => [Event.Keyboard (.KeyReleased kc modifiers)])).getD []

/-! ## Mouse button numbers

`impl From<ButtonNumber> for mouse::Button` (src/lib.rs:846-853).  The native
`buttonNumber` field is an `i64`; `value as u8` truncates to the low 8 bits,
which on integers is `value % 256` with the Euclidean remainder. -/

/-- Map a native button number to a toolkit mouse button: `2` is `Middle`,
anything else is `Other (value as u8)`. -/
def ButtonNumber.toButton (number : Int) : Button :=
  match number with
  | 2 => Button.Middle
  | value => Button.Other ((value % 256).toNat)

/-! ## Cursor icons

`EventHandler::set_cursor_icon` (src/lib.rs:588-605): each mouse-interaction
value selects a fixed `NSCursor` class object. -/

/-- The `NSCursor` class objects reachable from `set_cursor_icon`. -/
inductive NSCursorKind where
  | arrowCursor
  | pointingHandCursor
  | openHandCursor
  | IBeamCursor
  | crosshairCursor
  | closedHandCursor
  | resizeLeftRightCursor
  | resizeUpDownCursor
  deriving DecidableEq, Repr

/-- The fixed mapping from mouse-interaction values to native cursors. -/
def set_cursor_icon (cursor : Interaction) : NSCursorKind :=
  match cursor with
  | .Idle => .arrowCursor
  | .Pointer => .pointingHandCursor
  | .Grab => .openHandCursor
  | .Text => .IBeamCursor
  | .Crosshair => .crosshairCursor
  | .Working => .arrowCursor
  | .Grabbing => .closedHandCursor
  | .ResizingHorizontally => .resizeLeftRightCursor
  | .ResizingVertically => .resizeUpDownCursor

/-! ## Pasteboard (clipboard read)

`impl Clipboard for Pasteboard` (src/lib.rs:867-886).  The pasteboard's
observable behaviour is what `readObjectsForClasses:options:` returns for the
`NSString` class: either a null pointer (`none`) or a list of string objects,
each of which answers `UTF8String` with either a null pointer (`none`) or
decodable bytes (`some` the lossily decoded text). -/

/-- A string object on the pasteboard: its `UTF8String` answer, `none` for a
null byte pointer, otherwise the lossily decoded text. -/
structure NSStringObj where
  UTF8String : Option String
  deriving DecidableEq, Repr

/-- The pasteboard, as the result of reading its string-typed objects:
`none` models a null object-list pointer. -/
structure Pasteboard where
  read_objects : Option (List NSStringObj)
  deriving DecidableEq, Repr

/-- `Pasteboard::content`: `None` when the object list is null or empty,
otherwise the first object's decoded text (`None` again when its byte
pointer is null). -/
def Pasteboard.content (p : Pasteboard) : Option String :=
  match p.read_objects with
  | none => none
  | some [] => none
  | some (o :: _) => o.UTF8String

/-! ## Event handler and swap chain

`EventHandler` (src/lib.rs:393-606).  The wgpu device/surface/queue are
external handles; the swap chain is modelled by its descriptor, the iced
`program::State` by its pending event queue (what `queue_event`,
`is_queue_empty` and `update` observe). -/

/-- `wgpu::TextureFormat` (only the value the crate uses). -/
inductive TextureFormat where
  | Bgra8UnormSrgb
  deriving DecidableEq, Repr

/-- `wgpu::TextureUsage` (only the value the crate uses). -/
inductive TextureUsage where
  | OUTPUT_ATTACHMENT
  deriving DecidableEq, Repr

/-- `wgpu::PresentMode` (only the value the crate uses). -/
inductive PresentMode where
  | Mailbox
  deriving DecidableEq, Repr

/-- `wgpu::SwapChainDescriptor`. -/
structure SwapChainDescriptor where
  usage : TextureUsage
  format : TextureFormat
  width : Nat
  height : Nat
  present_mode : PresentMode
  deriving DecidableEq, Repr

/-- `iced::Size<u32>`. -/
structure Size where
  width : Nat
  height : Nat
  deriving DecidableEq, Repr

/-- `iced_wgpu::Viewport`: physical pixel size plus scale factor (the logical
size is derived inside iced and not observed by any claim). -/
structure Viewport where
  physical_size : Size
  scale_factor : Float

/-- `Viewport::with_physical_size`. -/
def Viewport.with_physical_size (size : Size) (scale_factor : Float) : Viewport :=
  { physical_size := size, scale_factor := scale_factor }

/-- The iced `program::State`, modelled by its pending event queue. -/
structure ProgramState where
  queue : List Event

/-- `EventHandler`: the toolkit state, viewport, fixed texture format and the
current swap chain (by its descriptor). -/
structure EventHandler where
  state : ProgramState
  viewport : Viewport
  format : TextureFormat
  swap_chain : SwapChainDescriptor

/-- `EventHandler::init_swap_chain` (src/lib.rs:474-490): build a descriptor
with the given physical size, the handler's fixed format, render-target
usage and mailbox presentation. -/
def EventHandler.init_swap_chain (size : Size) (format : TextureFormat) :
    SwapChainDescriptor :=
  { usage := .OUTPUT_ATTACHMENT
    format := format
    width := size.width
    height := size.height
    present_mode := .Mailbox }

/-- `EventHandler::queue_event`: push each event into the toolkit state's
queue. -/
def EventHandler.queue_event (h : EventHandler) (events : List Event) :
    EventHandler :=
  { h with state := { queue := h.state.queue ++ events } }

/-- `EventHandler::on_window_event`: queue a single window event. -/
def EventHandler.on_window_event (h : EventHandler) (event : WindowEvent) :
    EventHandler :=
  h.queue_event [Event.Window event]

/-- `EventHandler::resize` (src/lib.rs:492-510): replace the viewport,
rebuild the swap chain at the new physical size and queue one `Resized`
window event. -/
def EventHandler.resize (h : EventHandler) (new_size : Size)
    (scale_factor : Float) : EventHandler :=
  let h := { h with viewport := Viewport.with_physical_size new_size scale_factor }
  let h := { h with swap_chain :=
    { usage := .OUTPUT_ATTACHMENT
      format := h.format
      width := new_size.width
      height := new_size.height
      present_mode := .Mailbox } }
  h.on_window_event (.Resized new_size.width new_size.height)

/-- `EventHandler::update_state` (src/lib.rs:542-551): when the queue is
non-empty, drain it into the program state (`state.update`); otherwise do
nothing. -/
def EventHandler.update_state (h : EventHandler) : EventHandler :=
  if h.state.queue = [] then h else { h with state := { queue := [] } }

/-- The externally visible GPU / OS actions a `redraw` tick performs, in
order. -/
inductive RenderAction where
  | get_next_texture
  | render_started
  | create_command_encoder
  | render_pass_background
  | render_pass_iced
  | submit
  | render_finished
  | set_cursor (cursor : NSCursorKind)
  deriving DecidableEq, Repr

/-- `EventHandler::redraw` (src/lib.rs:520-540): apply pending events, then
try to acquire the next swap-chain frame.  `frame` is the outcome of
`get_next_texture` (`none` on acquisition failure) and `interaction` the
mouse interaction the iced draw pass would return.  The result pairs the new
handler state with the trace of actions performed. -/
def EventHandler.redraw (h : EventHandler) (frame : Option Unit)
    (interaction : Interaction) : EventHandler × List RenderAction :=
  let h := h.update_state
  match frame with
  | some _ =>
      (h, [.get_next_texture, .render_started, .create_command_encoder,
           .render_pass_background, .render_pass_iced, .submit,
           .render_finished, .set_cursor (set_cursor_icon interaction)])
  | none => (h, [.get_next_texture])

/-! ## Drag-and-drop callbacks

`IcedView::dragging_entered` / `dragging_ended` / `dragging_exited`
(src/lib.rs:206-263).  The view state is the `_did_exit_drag` ivar plus the
event queue reached through `on_window_event`; each callback receives the
paths the dragging pasteboard holds at that moment. -/

/-- The view state the drag callbacks touch: the `_did_exit_drag` ivar and
the handler's event queue. -/
structure ViewState where
  did_exit_drag : Bool
  queue : List Event
  deriving DecidableEq, Repr

/-- `dragging_entered`: clear the exit flag and queue one `FileHovered`
event per path on the dragging pasteboard. -/
def dragging_entered (v : ViewState) (paths : List String) : ViewState :=
  { did_exit_drag := false
    queue := v.queue ++ paths.map (fun p => Event.Window (.FileHovered p)) }

/-- `dragging_ended`: if the exit flag is set, do nothing; otherwise queue
one `FileDropped` event per path on the dragging pasteboard. -/
def dragging_ended (v : ViewState) (paths : List String) : ViewState :=
  if v.did_exit_drag then v
  else
    { v with
      queue := v.queue ++ paths.map (fun p => Event.Window (.FileDropped p)) }

/-- `dragging_exited`: set the exit flag and queue one `FilesHoveredLeft`
event. -/
def dragging_exited (v : ViewState) : ViewState :=
  { did_exit_drag := true
    queue := v.queue ++ [Event.Window .FilesHoveredLeft] }

/-! ## Theorems -/

/-- C1: after a drag-entered followed by a drag-exited with no intervening
drag-ended, the subsequent drag-ended emits no "file dropped" event (it
leaves the state untouched: the exit flag suppresses it); and a drag-ended
following a drag-entered with no intervening drag-exited emits exactly one
"file dropped" event per path on the dragging pasteboard. -/
theorem drag_exit_suppresses_drop (v : ViewState) (ps qs : List String) :
    dragging_ended (dragging_exited (dragging_entered v ps)) qs
        = dragging_exited (dragging_entered v ps)
    ∧ (dragging_ended (dragging_entered v ps) qs).queue
        = (dragging_entered v ps).queue
            ++ qs.map (fun p => Event.Window (.FileDropped p)) := by
  constructor
  · simp [dragging_ended, dragging_exited]
  · simp [dragging_ended, dragging_entered]

/-- C2: for every new size (W,H) and scale factor, `resize` replaces the
swap chain with one whose descriptor is exactly the render-target/mailbox
descriptor of width W and height H (no stale dimensions), and appends
exactly one window Resized event carrying width=W, height=H to the queue. -/
theorem resize_rebuilds_swap_chain (h : EventHandler) (new_size : Size)
    (scale_factor : Float) :
    (h.resize new_size scale_factor).swap_chain
        = { usage := .OUTPUT_ATTACHMENT
            format := h.format
            width := new_size.width
            height := new_size.height
            present_mode := .Mailbox }
    ∧ (h.resize new_size scale_factor).state.queue
        = h.state.queue
            ++ [Event.Window (.Resized new_size.width new_size.height)] := by
  constructor <;> rfl

/-- C3: key-code translation is a pure deterministic function of the native
scan code (equal inputs give equal outputs), and an unmapped code yields no
key event: key-up translates to the empty list and key-down contributes no
key event (only character events remain). -/
theorem keycode_translation_pure (c c' : Nat) (chars : String) (flags : Nat) :
    (c = c' → NSKeyCode.toKeyCode c = NSKeyCode.toKeyCode c')
    ∧ (NSKeyCode.toKeyCode c = none →
        NSEventT.as_key_up ⟨c, chars, flags⟩ = []
        ∧ ∀ e ∈ NSEventT.as_key_down ⟨c, chars, flags⟩,
            e.isKeyEvent = false) := by
  refine ⟨fun h => by rw [h], fun h => ⟨?_, ?_⟩⟩
  · simp [NSEventT.as_key_up, h]
  · intro e he
    simp [NSEventT.as_key_down, h, NSEventT.into_chars] at he
    obtain ⟨ch, _, rfl⟩ := he
    rfl

/-- Witness for C3, at the unmapped scan code 10 (the commented-out
section-sign key). -/
theorem keycode_translation_pure_witness :
    NSKeyCode.toKeyCode 10 = NSKeyCode.toKeyCode 10
    ∧ NSKeyCode.toKeyCode 10 = none
    ∧ NSEventT.as_key_up ⟨10, "ab", 0⟩ = []
    ∧ ∀ e ∈ NSEventT.as_key_down ⟨10, "ab", 0⟩, e.isKeyEvent = false :=
  ⟨(keycode_translation_pure 10 10 "ab" 0).1 rfl, rfl,
   ((keycode_translation_pure 10 10 "ab" 0).2 rfl).1,
   ((keycode_translation_pure 10 10 "ab" 0).2 rfl).2⟩

/-- C4: clipboard read returns `none` when the pasteboard holds no
string-typed objects; otherwise it returns the decoded text of the first
string object; on a pasteboard holding the single string "hello" it
returns "hello". -/
theorem pasteboard_content_first_string :
    Pasteboard.content ⟨some []⟩ = none
    ∧ (∀ (o : NSStringObj) (rest : List NSStringObj) (s : String),
        o.UTF8String = some s →
        Pasteboard.content ⟨some (o :: rest)⟩ = some s)
    ∧ Pasteboard.content ⟨some [⟨some "hello"⟩]⟩ = some "hello" := by
  refine ⟨rfl, ?_, rfl⟩
  intro o rest s hs
  simp [Pasteboard.content, hs]

/-- Witness for C4, on a pasteboard whose first string object decodes to
"hello". -/
theorem pasteboard_content_first_string_witness :
    Pasteboard.content ⟨some [⟨some "hello"⟩, ⟨none⟩]⟩ = some "hello" :=
  pasteboard_content_first_string.2.1 ⟨some "hello"⟩ [⟨none⟩] "hello" rfl

/-- C5: when frame acquisition fails, `redraw` performs exactly one
acquisition attempt and nothing else: no command encoder is created, nothing
is submitted, no cursor update occurs, and the handler is left exactly as
`update_state` leaves it (same swap chain and viewport), ready for the next
redraw trigger; no error is surfaced (the function is total). -/
theorem redraw_drops_frame_on_failure (h : EventHandler) (i : Interaction) :
    (h.redraw none i).2 = [RenderAction.get_next_texture]
    ∧ RenderAction.submit ∉ (h.redraw none i).2
    ∧ RenderAction.create_command_encoder ∉ (h.redraw none i).2
    ∧ (∀ c, RenderAction.set_cursor c ∉ (h.redraw none i).2)
    ∧ (h.redraw none i).1 = h.update_state
    ∧ (h.redraw none i).1.swap_chain = h.swap_chain
    ∧ (h.redraw none i).1.viewport = h.viewport := by
  refine ⟨rfl, by simp [EventHandler.redraw], by simp [EventHandler.redraw],
    fun c => by simp [EventHandler.redraw], rfl, ?_, ?_⟩
  all_goals
    simp only [EventHandler.redraw, EventHandler.update_state]
    split <;> rfl

/-- C6: the mapping from mouse-interaction values to native cursors is total
and fixed; in particular `Pointer` selects the pointing-hand cursor and
`Grab` selects the open-hand cursor. -/
theorem cursor_mapping_total_fixed :
    set_cursor_icon .Pointer = .pointingHandCursor
    ∧ set_cursor_icon .Grab = .openHandCursor
    ∧ ∀ i : Interaction, ∃ c : NSCursorKind, set_cursor_icon i = c :=
  ⟨rfl, rfl, fun i => ⟨set_cursor_icon i, rfl⟩⟩

/-- C7 counterexample: the claim that every non-2 button index maps to
`Other` carrying that same index fails at index 258: the `as u8` cast
truncates, so 258 maps to `Other 2`, not `Other 258`. -/
theorem button_number_truncation_counterexample :
    ButtonNumber.toButton 258 = Button.Other 2
    ∧ ButtonNumber.toButton 258 ≠ Button.Other 258 := by
  constructor <;> decide

/-- C7 (amended): index 2 maps to `Middle`; every other index maps to
`Other` carrying the index truncated to its low 8 bits (`index % 256`); in
particular, for indices in 0..=255 other than 2 the carried value equals the
index itself. -/
theorem button_number_mapping (number : Int) :
    (number = 2 → ButtonNumber.toButton number = Button.Middle)
    ∧ (number ≠ 2 →
        ButtonNumber.toButton number = Button.Other ((number % 256).toNat))
    ∧ (0 ≤ number → number < 256 → number ≠ 2 →
        ButtonNumber.toButton number = Button.Other number.toNat) := by
  refine ⟨fun h => by subst h; rfl, fun h => ?_, fun h0 h1 h2 => ?_⟩
  · unfold ButtonNumber.toButton
    split
    · exact absurd rfl h
    · rfl
  · unfold ButtonNumber.toButton
    split
    · exact absurd rfl h2
    · rw [Int.emod_eq_of_lt h0 h1]

/-- Witness for C7 (amended), at indices 2, 5 and 258. -/
theorem button_number_mapping_witness :
    ButtonNumber.toButton 2 = Button.Middle
    ∧ ButtonNumber.toButton 258 = Button.Other (((258 : Int) % 256).toNat)
    ∧ ButtonNumber.toButton 5 = Button.Other (5 : Int).toNat :=
  ⟨(button_number_mapping 2).1 rfl,
   (button_number_mapping 258).2.1 (by decide),
   (button_number_mapping 5).2.2 (by decide) (by decide) (by decide)⟩

/-- C8: a key-down translates to at most one key-pressed event, plus exactly
one character-received event per character of the event's text; when the
scan code is unmapped the result is the character events alone, and when it
is mapped the result is the character events followed by the key-pressed
event. -/
theorem key_down_events_shape (e : NSEventT) :
    (e.as_key_down.countP Event.isKeyPressed ≤ 1)
    ∧ (e.as_key_down.filter Event.isCharacterReceived
        = e.characters.toList.map
            (fun c => Event.Keyboard (.CharacterReceived c)))
    ∧ (NSKeyCode.toKeyCode e.keyCode = none →
        e.as_key_down
          = e.characters.toList.map
              (fun c => Event.Keyboard (.CharacterReceived c)))
    ∧ (∀ kc, NSKeyCode.toKeyCode e.keyCode = some kc →
        e.as_key_down
          = e.characters.toList.map
              (fun c => Event.Keyboard (.CharacterReceived c))
            ++ [Event.Keyboard (.KeyPressed kc
                  (ModifiersState.from_flags e.modifierFlags))]) := by
  have hchars0 :
      (e.into_chars).countP Event.isKeyPressed = 0 := by
    rw [List.countP_eq_zero]
    intro a ha
    simp [NSEventT.into_chars] at ha
    obtain ⟨c, _, rfl⟩ := ha
    simp [Event.isKeyPressed]
  have hcharsf :
      (e.into_chars).filter Event.isCharacterReceived = e.into_chars := by
    rw [List.filter_eq_self]
    intro a ha
    simp [NSEventT.into_chars] at ha
    obtain ⟨c, _, rfl⟩ := ha
    rfl
  cases hk : NSKeyCode.toKeyCode e.keyCode with
  | none =>
      refine ⟨?_, ?_, fun _ => ?_, fun kc hkc => by simp [hk] at hkc⟩
      · simp [NSEventT.as_key_down, hk, hchars0]
      · simpa [NSEventT.as_key_down, hk, NSEventT.into_chars] using hcharsf
      · simp [NSEventT.as_key_down, hk, NSEventT.into_chars]
  | some kc =>
      refine ⟨?_, ?_, fun hn => by simp [hk] at hn, fun kc' hkc => ?_⟩
      · simp [NSEventT.as_key_down, hk, List.countP_append, hchars0,
          List.countP_cons, Event.isKeyPressed]
      · rw [NSEventT.as_key_down]
        simp only [hk, Option.map_some, Option.getD_some, List.filter_append]
        rw [hcharsf]
        simp [NSEventT.into_chars, Event.isCharacterReceived]
      · cases hkc
        simp [NSEventT.as_key_down, hk, NSEventT.into_chars]

/-- Witness for C8, at scan code 0 (the A key) with typed text "ab". -/
theorem key_down_events_shape_witness :
    NSEventT.as_key_down ⟨0, "ab", 0⟩
      = ("ab".toList.map (fun c => Event.Keyboard (.CharacterReceived c)))
        ++ [Event.Keyboard (.KeyPressed KeyCode.A
              (ModifiersState.from_flags 0))] :=
  (key_down_events_shape ⟨0, "ab", 0⟩).2.2.2 KeyCode.A rfl

/-- C9: a key-up never produces a character-received event; it yields
exactly one key-released event when the scan code is mapped and the empty
list when it is unmapped. -/
theorem key_up_events_shape (e : NSEventT) :
    (∀ ev ∈ e.as_key_up, ev.isCharacterReceived = false)
    ∧ (∀ kc, NSKeyCode.toKeyCode e.keyCode = some kc →
        e.as_key_up = [Event.Keyboard (.KeyReleased kc
          (ModifiersState.from_flags e.modifierFlags))])
    ∧ (NSKeyCode.toKeyCode e.keyCode = none → e.as_key_up = []) := by
  cases hk : NSKeyCode.toKeyCode e.keyCode with
  | none =>
      refine ⟨?_, fun kc hkc => by simp [hk] at hkc, fun _ => ?_⟩ <;>
        simp [NSEventT.as_key_up, hk]
  | some kc =>
      refine ⟨?_, fun kc' hkc => ?_, fun hn => by simp [hk] at hn⟩
      · intro ev hev
        simp [NSEventT.as_key_up, hk] at hev
        subst hev
        rfl
      · cases hkc
        simp [NSEventT.as_key_up, hk]

/-- Witness for C9, at scan code 0 (the A key). -/
theorem key_up_events_shape_witness :
    NSEventT.as_key_up ⟨0, "ab", 0⟩
      = [Event.Keyboard (.KeyReleased KeyCode.A
          (ModifiersState.from_flags 0))] :=
  (key_up_events_shape ⟨0, "ab", 0⟩).2.1 KeyCode.A rfl

/-- C10: clipboard read also returns `none` when the object-list pointer is
null or when the first string object's UTF-8 byte pointer is null; in every
case the result is either `none` or some decoded string (no other failure
at the public interface). -/
theorem pasteboard_content_null_safe :
    Pasteboard.content ⟨none⟩ = none
    ∧ (∀ (o : NSStringObj) (rest : List NSStringObj),
        o.UTF8String = none → Pasteboard.content ⟨some (o :: rest)⟩ = none)
    ∧ (∀ p : Pasteboard,
        Pasteboard.content p = none ∨ ∃ s, Pasteboard.content p = some s) := by
  refine ⟨rfl, ?_, ?_⟩
  · intro o rest hn
    simp [Pasteboard.content, hn]
  · intro p
    cases hc : Pasteboard.content p with
    | none => exact Or.inl rfl
    | some s => exact Or.inr ⟨s, rfl⟩

/-- Witness for C10, on a pasteboard whose first string object has a null
byte pointer. -/
theorem pasteboard_content_null_safe_witness :
    Pasteboard.content ⟨some [⟨none⟩, ⟨some "x"⟩]⟩ = none :=
  pasteboard_content_null_safe.2.1 ⟨none⟩ [⟨some "x"⟩] rfl

end IcedNSView
